import Mathlib

/-!
# Verification of the Grit Flow question-generation, adaptation and scoring logic

Shallow embedding of the pure logic of the repository:

* `src/src/lib/question-generator/engine.ts` — question count formula,
  MCQ/short-answer distribution, difficulty curve, MCQ option shuffling;
* the checkpoint router (`submit` mutation) — answer validation loop,
  per-difficulty score aggregation, weighted total and pass threshold,
  plus the local short-answer fallback heuristic (keyword overlap and
  Levenshtein similarity);
* the adaptive engine calculator — `calculateComplexityAdjustment`.

JavaScript numbers are modelled as exact rationals (`ℚ`); integer-valued
quantities (counts, scores validated as integers by the zod schemas) are
modelled as `ℤ`/`ℕ`.  `Math.round` (round half towards positive infinity)
is modelled by `jsRound`.
-/

/-- JS `Math.round`: rounds half away from zero towards positive infinity,
i.e. `Math.round x = ⌊x + 0.5⌋` for every finite number. -/
def jsRound (x : ℚ) : ℤ := ⌊x + 1/2⌋

/-! ## Question generator engine (`engine.ts`) -/

/-- `DifficultyLevel` from `engine.ts`: `"easy" | "medium" | "hard"`. -/
inductive DifficultyLevel where
  | easy
  | medium
  | hard
deriving DecidableEq, BEq, Repr

/-- Rank of a difficulty level in the easy → medium → hard order. -/
def difficultyRank : DifficultyLevel → ℕ
  | .easy => 0
  | .medium => 1
  | .hard => 2

/-- `calculateQuestionCount` (engine.ts, lines 111–119):
`baseCount = 5`, `complexityOffset = complexityScore - 1`,
result `min(baseCount + complexityOffset + adaptationModifier, 10)`. -/
def calculateQuestionCount (complexityScore adaptationModifier : ℤ) : ℤ :=
  min (5 + (complexityScore - 1) + adaptationModifier) 10

/-- `QuestionDistribution` from `engine.ts`. -/
structure QuestionDistribution where
  mcq : ℤ
  shortAnswer : ℤ
deriving DecidableEq, Repr

/-- `calculateDistribution` (engine.ts, lines 127–148): MCQ percentage is
0.7 for `complexityScore ≤ 2`, else 0.5; `mcqCount = round(totalCount * pct)`;
`shortAnswerCount = totalCount - mcqCount`. -/
def calculateDistribution (totalCount : ℤ) (complexityScore : ℤ) : QuestionDistribution :=
  let mcqPercentage : ℚ := if complexityScore ≤ 2 then 0.7 else 0.5
  let mcqCount : ℤ := jsRound ((totalCount : ℚ) * mcqPercentage)
  { mcq := mcqCount, shortAnswer := totalCount - mcqCount }

/-- `generateDifficultyCurve` (engine.ts, lines 156–183):
`easyRatio = 0.4 - complexityScore * 0.05`, `mediumRatio = 0.4`,
`easyCount = max(1, round(totalCount * easyRatio))`,
`mediumCount = max(1, round(totalCount * mediumRatio))`,
`hardCount = totalCount - easyCount - mediumCount`, then the curve is
easy entries, then medium entries, then hard entries.  A negative
`hardCount` makes the JS `for` loop run zero times, which `Int.toNat`
mirrors. -/
def generateDifficultyCurve (totalCount : ℤ) (complexityScore : ℤ) : List DifficultyLevel :=
  let easyRatio : ℚ := 0.4 - (complexityScore : ℚ) * 0.05
  let mediumRatio : ℚ := 0.4
  let easyCount : ℤ := max 1 (jsRound ((totalCount : ℚ) * easyRatio))
  let mediumCount : ℤ := max 1 (jsRound ((totalCount : ℚ) * mediumRatio))
  let hardCount : ℤ := totalCount - easyCount - mediumCount
  List.replicate easyCount.toNat .easy ++
    List.replicate mediumCount.toNat .medium ++
    List.replicate hardCount.toNat .hard

/-- `optionTemplates` of `generateMCQuestion` (engine.ts, lines 230–249):
the four base option texts per difficulty; the first one is the intended
correct answer. -/
def mcqOptionTemplates : DifficultyLevel → Fin 4 → String
  | .easy =>
    ![ "The fundamental building block",
       "A secondary implementation detail",
       "An optional enhancement",
       "An deprecated feature"]
  | .medium =>
    ![ "Use a synchronous approach with proper error handling",
       "Implement caching at the application layer",
       "Apply the observer pattern with type safety",
       "Utilize dependency injection with lazy initialization"]
  | .hard =>
    ![ "Combine memoization with useCallback to prevent unnecessary re-renders while maintaining referential identity",
       "Implement a custom hook with useRef to bridge imperative APIs with declarative React patterns",
       "Use a worker thread with SharedArrayBuffer for CPU-intensive computations while maintaining UI responsiveness",
       "Apply the strategy pattern with composition to handle multiple authentication providers dynamically"]

/-- The option-shuffling block of `generateMCQuestion` (engine.ts,
lines 252–264).  The outcome of `[0, 1, 2, 3].sort(() => Math.random() - 0.5)`
is taken as the parameter `shuffledIndices` (JS `sort` always returns a
rearrangement of the input array).  The code sets
`correctAnswerIndex = shuffledIndices[correctOriginalIndex]` with
`correctOriginalIndex = 0`, and `options[i] = baseOptions[shuffledIndices[i]]`.
Returns the `options` array and `correctAnswerIndex`. -/
def generateMCQuestionOptions (difficulty : DifficultyLevel)
    (shuffledIndices : Fin 4 → Fin 4) : (Fin 4 → String) × Fin 4 :=
  let baseOptions := mcqOptionTemplates difficulty
  let correctAnswerIndex := shuffledIndices 0
  (fun i => baseOptions (shuffledIndices i), correctAnswerIndex)

/-! ## Adaptive engine calculator (`calculateComplexityAdjustment`) -/

/-- `AdaptationSignals` of the adaptive engine calculator. -/
structure AdaptationSignals where
  scrollSpeed : ℚ
  pausePoints : ℚ
  revisitCount : ℚ
  timeOnPage : ℚ
deriving DecidableEq, Repr

/-- The `"easy" | "normal" | "hard"` difficulty classification of
`ComplexityAdjustmentResult`. -/
inductive AdaptDifficulty where
  | easy
  | normal
  | hard
deriving DecidableEq, Repr

/-- `ComplexityAdjustmentResult` of the adaptive engine calculator. -/
structure ComplexityAdjustmentResult where
  modifier : ℚ
  difficulty : AdaptDifficulty
  estimatedQuestions : ℤ
deriving DecidableEq, Repr

/-- Speed scoring branch of `calculateComplexityAdjustment`. -/
def speedScore (scrollSpeed : ℚ) : ℚ :=
  if scrollSpeed > 150 then 2
  else if scrollSpeed > 100 then 1.5
  else if scrollSpeed > 50 then 1
  else if scrollSpeed > 30 then 0.5
  else 0

/-- Pause scoring branch of `calculateComplexityAdjustment`. -/
def pauseScore (pausePoints : ℚ) : ℚ :=
  if pausePoints ≤ 2 then 1.5
  else if pausePoints ≤ 5 then 1
  else if pausePoints ≤ 10 then 0.5
  else 0

/-- Revisit scoring branch of `calculateComplexityAdjustment`. -/
def revisitScore (revisitCount : ℚ) : ℚ :=
  if revisitCount = 0 then 1.5
  else if revisitCount ≤ 2 then 1
  else if revisitCount ≤ 4 then 0.5
  else 0

/-- Time-based adjustment branch of `calculateComplexityAdjustment`:
`expectedTime = baseComplexity * 60 * 1000` and
`ratio = timeOnPage / expectedTime` are inlined below.
When `expectedTime = 0` (and `timeOnPage > 0`) the JS division yields
`Infinity`, which fails each of the four ratio tests, so the score is 0.25;
this case is made explicit because rational division by zero yields 0. -/
def timeScore (timeOnPage baseComplexity : ℚ) : ℚ :=
  if timeOnPage > 0 then
    if baseComplexity * 60 * 1000 = 0 then 0.25
    else
      if timeOnPage / (baseComplexity * 60 * 1000) < 0.5 then 1.5
      else if timeOnPage / (baseComplexity * 60 * 1000) < 1 then 1.25
      else if timeOnPage / (baseComplexity * 60 * 1000) ≤ 1.5 then 1
      else if timeOnPage / (baseComplexity * 60 * 1000) ≤ 2 then 0.5
      else 0.25
  else 1

/-- `calculateComplexityAdjustment`: weighted average of the four signal
scores (speed 30%, pauses 25%, revisits 25%, time 20%), clamped to `[0, 2]`,
rounded to two decimal places in the returned `modifier`; difficulty
classification and estimated question count as in the source. -/
def calculateComplexityAdjustment (signals : AdaptationSignals)
    (baseComplexity : ℚ) : ComplexityAdjustmentResult :=
  let rawModifier : ℚ :=
    speedScore signals.scrollSpeed * 0.3 +
      pauseScore signals.pausePoints * 0.25 +
      revisitScore signals.revisitCount * 0.25 +
      timeScore signals.timeOnPage baseComplexity * 0.2
  let modifier : ℚ := min 2 (max 0 rawModifier)
  let difficulty : AdaptDifficulty :=
    if modifier ≥ 1.5 then .easy
    else if modifier ≥ 0.75 then .normal
    else .hard
  let baseQuestions : ℤ := max 3 (min 10 (jsRound (baseComplexity / 2)))
  let estimatedQuestions : ℤ := jsRound ((baseQuestions : ℚ) * (0.5 + modifier * 0.75))
  { modifier := (jsRound (modifier * 100) : ℚ) / 100
    difficulty := difficulty
    estimatedQuestions := max 3 (min 10 estimatedQuestions) }

/-! ## Checkpoint submit: answer validation loop and weighted scoring -/

/-- `ScoreEntry` of the checkpoint router. -/
structure ScoreEntry where
  isCorrect : Bool
  geminiValidated : Bool
deriving DecidableEq, Repr

/-- The part of a generated question that the submit scoring loop reads:
its id (key of the question lookup map) and its difficulty. -/
structure CheckpointQuestion where
  id : String
  difficulty : DifficultyLevel
deriving DecidableEq, Repr

/-- One element of the `answers` array of `SubmitCheckpointInputSchema`:
`selectedAnswer` is `z.union([z.number(), z.string()])`. -/
structure SubmittedAnswer where
  questionId : String
  selectedAnswer : ℤ ⊕ String
deriving DecidableEq, Repr

/-- `categoryScoresInternal` of the submit mutation: per-category
`correct` and `total` counters (foundation = easy, application = medium,
synthesis = hard). -/
structure CategoryScores where
  foundationCorrect : ℕ
  foundationTotal : ℕ
  applicationCorrect : ℕ
  applicationTotal : ℕ
  synthesisCorrect : ℕ
  synthesisTotal : ℕ
deriving DecidableEq, Repr

/-- The initial `{ foundation: {0,0}, application: {0,0}, synthesis: {0,0} }`. -/
def zeroCategoryScores : CategoryScores := ⟨0, 0, 0, 0, 0, 0⟩

/-- One loop iteration's category update: `total++` always, `correct++`
when the entry is correct, in the bucket given by `getDifficultyCategory`. -/
def bumpCategory (c : CategoryScores) (d : DifficultyLevel) (isCorrect : Bool) : CategoryScores :=
  match d with
  | .easy =>
    { c with foundationTotal := c.foundationTotal + 1,
             foundationCorrect := c.foundationCorrect + (if isCorrect then 1 else 0) }
  | .medium =>
    { c with applicationTotal := c.applicationTotal + 1,
             applicationCorrect := c.applicationCorrect + (if isCorrect then 1 else 0) }
  | .hard =>
    { c with synthesisTotal := c.synthesisTotal + 1,
             synthesisCorrect := c.synthesisCorrect + (if isCorrect then 1 else 0) }

/-- `scores[answer.questionId] = entry` on the `scores` record. -/
def updateScores (s : String → Option ScoreEntry) (k : String) (v : ScoreEntry) :
    String → Option ScoreEntry :=
  fun q => if q = k then some v else s q

/-- The `for (const answer of answers)` loop of the submit mutation:
looks each answer's question up in the question map; a missing question
records `{isCorrect: false, geminiValidated: false}` and `continue`s;
otherwise the (awaited) result of `validateAnswer` — abstracted here as the
`validate` parameter — is recorded and tallied into its difficulty bucket. -/
def runSubmit (validate : CheckpointQuestion → SubmittedAnswer → ScoreEntry)
    (questionMap : String → Option CheckpointQuestion) :
    List SubmittedAnswer → (String → Option ScoreEntry) → CategoryScores →
      (String → Option ScoreEntry) × CategoryScores
  | [], scores, counts => (scores, counts)
  | answer :: rest, scores, counts =>
    match questionMap answer.questionId with
    | none =>
      runSubmit validate questionMap rest
        (updateScores scores answer.questionId ⟨false, false⟩) counts
    | some q =>
      let entry := validate q answer
      runSubmit validate questionMap rest
        (updateScores scores answer.questionId entry)
        (bumpCategory counts q.difficulty entry.isCorrect)

/-- A category's score in the submit mutation:
`total > 0 ? (correct / total) * 100 : 0`. -/
def categoryScore (correct total : ℕ) : ℚ :=
  if total > 0 then ((correct : ℚ) / (total : ℚ)) * 100 else 0

/-- `totalScore = Math.round(foundationScore * 0.4 + applicationScore * 0.35
+ synthesisScore * 0.25)`. -/
def totalScoreOf (c : CategoryScores) : ℤ :=
  jsRound (categoryScore c.foundationCorrect c.foundationTotal * 0.4 +
    categoryScore c.applicationCorrect c.applicationTotal * 0.35 +
    categoryScore c.synthesisCorrect c.synthesisTotal * 0.25)

/-- `canProgress = totalScore >= 70`. -/
def canProgressOf (c : CategoryScores) : Bool :=
  decide (totalScoreOf c ≥ 70)

/-! ## Short-answer fallback heuristic (catch branch of `validateAnswer`) -/

/-- Boolean list prefix test (used to implement JS `String.includes`). -/
def isPrefixList : List Char → List Char → Bool
  | [], _ => true
  | _ :: _, [] => false
  | p :: ps, c :: cs => p == c && isPrefixList ps cs

/-- Does `pat` occur as a contiguous sublist? -/
def hasSubList (pat : List Char) : List Char → Bool
  | [] => isPrefixList pat []
  | c :: rest => isPrefixList pat (c :: rest) || hasSubList pat rest

/-- JS `s.includes(pat)`: `pat` occurs as a substring of `s`. -/
def jsIncludes (s pat : String) : Bool :=
  hasSubList pat.toList s.toList

/-- `acceptableLower.split(/\s+/).filter(word => word.length > 3)`:
the keywords of an acceptable answer.  Splitting on each whitespace
character produces empty tokens where the regex collapses runs, but
every such token is removed by the `length > 3` filter. -/
def keywordsOf (acceptableLower : String) : List String :=
  (acceptableLower.split (fun c => c.isWhitespace)).filter (fun w => w.length > 3)

/-- `levenshteinDistance` of the checkpoint router: the recurrence computed
by the DP matrix (`matrix[i][j]` from `matrix[i-1][j-1]`,
`matrix[i][j-1] + 1`, `matrix[i-1][j] + 1`), written recursively. -/
def levRec : List Char → List Char → ℕ
  | [], ys => ys.length
  | x :: xs, [] => (x :: xs).length
  | x :: xs, y :: ys =>
    if x = y then levRec xs ys
    else 1 + min (levRec xs ys) (min (levRec xs (y :: ys)) (levRec (x :: xs) ys))
termination_by a b => a.length + b.length
decreasing_by all_goals simp_arith

/-- `levenshteinDistance(str1, str2)` on strings. -/
def levenshteinDistance (str1 str2 : String) : ℕ :=
  levRec str1.toList str2.toList

/-- `calculateSimilarity` of the checkpoint router:
`longer.length == 0 ? 1 : (longer.length - editDistance) / longer.length`. -/
def calculateSimilarity (str1 str2 : String) : ℚ :=
  let longer := if str1.length > str2.length then str1 else str2
  let shorter := if str1.length > str2.length then str2 else str1
  if longer.length = 0 then 1
  else ((longer.length : ℚ) - (levenshteinDistance longer shorter : ℚ)) / (longer.length : ℚ)

/-- The `for (const acceptable of question.acceptableAnswers)` loop of the
catch branch of `validateAnswer`: return `true` at the first acceptable
answer passing the keyword test (`keywords.length > 0` and
`matchedKeywords.length >= ceil(keywords.length * 0.5)`, with
`keywords = keywordsOf acceptable.toLower` and `matchedKeywords` its
sublist of keywords included in the user answer, both inlined below) or
the similarity test (non-empty user answer with similarity above 0.7);
`false` when the loop ends. -/
def validateShortAnswerFallbackLoop (userAnswerLower : String) :
    List String → Bool
  | [] => false
  | acceptable :: rest =>
    if (keywordsOf acceptable.toLower).length > 0 ∧
        ((keywordsOf acceptable.toLower).filter
          (fun kw => jsIncludes userAnswerLower kw)).length ≥
          Nat.ceil (((keywordsOf acceptable.toLower).length : ℚ) * 0.5) then true
    else if userAnswerLower.length > 0 ∧
        calculateSimilarity userAnswerLower acceptable.toLower > 0.7 then true
    else validateShortAnswerFallbackLoop userAnswerLower rest

/-- The catch branch of `validateAnswer` for a short-answer question (when
the Gemini call throws): lowercases and trims the user answer, then runs the
acceptable-answer loop. -/
def validateShortAnswerFallback (acceptableAnswers : List String)
    (userAnswer : String) : Bool :=
  validateShortAnswerFallbackLoop (userAnswer.toLower.trim) acceptableAnswers

/-! ## Claim theorems -/

/-- C1: for every complexityScore in [1,4] and adaptationModifier in [0,2],
`calculateQuestionCount` equals `min(5 + (complexityScore - 1) +
adaptationModifier, 10)` and its value lies in [5,10]. -/
theorem calculateQuestionCount_formula_and_bounds
    (complexityScore adaptationModifier : ℤ)
    (h1 : 1 ≤ complexityScore) (h2 : complexityScore ≤ 4)
    (h3 : 0 ≤ adaptationModifier) (h4 : adaptationModifier ≤ 2) :
    calculateQuestionCount complexityScore adaptationModifier =
      min (5 + (complexityScore - 1) + adaptationModifier) 10 ∧
    5 ≤ calculateQuestionCount complexityScore adaptationModifier ∧
    calculateQuestionCount complexityScore adaptationModifier ≤ 10 := by
  refine ⟨rfl, ?_, ?_⟩ <;> (unfold calculateQuestionCount; omega)

/-- Witness for C1 at complexityScore = 3, adaptationModifier = 2. -/
theorem calculateQuestionCount_formula_and_bounds_witness :
    ((1 : ℤ) ≤ 3 ∧ (3 : ℤ) ≤ 4 ∧ (0 : ℤ) ≤ 2 ∧ (2 : ℤ) ≤ 2) ∧
    (calculateQuestionCount 3 2 = min (5 + (3 - 1) + 2) 10 ∧
      5 ≤ calculateQuestionCount 3 2 ∧ calculateQuestionCount 3 2 ≤ 10) :=
  ⟨by decide,
    calculateQuestionCount_formula_and_bounds 3 2
      (by decide) (by decide) (by decide) (by decide)⟩

/-- C5: for totalCount in [5,10] and complexityScore in [1,4],
`calculateDistribution` returns `mcq = round(totalCount * 0.7)` when
`complexityScore ≤ 2` and `round(totalCount * 0.5)` otherwise, with
`shortAnswer = totalCount - mcq`, so `mcq + shortAnswer = totalCount`. -/
theorem calculateDistribution_formula_and_sum (totalCount complexityScore : ℤ)
    (h1 : 5 ≤ totalCount) (h2 : totalCount ≤ 10)
    (h3 : 1 ≤ complexityScore) (h4 : complexityScore ≤ 4) :
    (calculateDistribution totalCount complexityScore).mcq =
      jsRound ((totalCount : ℚ) * (if complexityScore ≤ 2 then 0.7 else 0.5)) ∧
    (calculateDistribution totalCount complexityScore).shortAnswer =
      totalCount - (calculateDistribution totalCount complexityScore).mcq ∧
    (calculateDistribution totalCount complexityScore).mcq +
      (calculateDistribution totalCount complexityScore).shortAnswer = totalCount := by
  refine ⟨rfl, rfl, ?_⟩
  simp only [calculateDistribution]
  omega

/-- Witness for C5 at totalCount = 7, complexityScore = 2. -/
theorem calculateDistribution_formula_and_sum_witness :
    ((5 : ℤ) ≤ 7 ∧ (7 : ℤ) ≤ 10 ∧ (1 : ℤ) ≤ 2 ∧ (2 : ℤ) ≤ 4) ∧
    ((calculateDistribution 7 2).mcq =
        jsRound ((7 : ℚ) * (if (2 : ℤ) ≤ 2 then 0.7 else 0.5)) ∧
      (calculateDistribution 7 2).shortAnswer = 7 - (calculateDistribution 7 2).mcq ∧
      (calculateDistribution 7 2).mcq + (calculateDistribution 7 2).shortAnswer = 7) :=
  ⟨by decide,
    calculateDistribution_formula_and_sum 7 2
      (by decide) (by decide) (by decide) (by decide)⟩

/-- C4: for every complexityScore in [1,4] and totalCount from the count
formula, the difficulty curve has length totalCount and is non-decreasing in
difficulty rank (all easy entries precede all medium entries, which precede
all hard entries). -/
theorem generateDifficultyCurve_length_and_monotone
    (complexityScore adaptationModifier : ℤ)
    (h1 : 1 ≤ complexityScore) (h2 : complexityScore ≤ 4)
    (h3 : 0 ≤ adaptationModifier) (h4 : adaptationModifier ≤ 2) :
    (((generateDifficultyCurve (calculateQuestionCount complexityScore adaptationModifier)
        complexityScore).length : ℤ) =
      calculateQuestionCount complexityScore adaptationModifier) ∧
    List.Sorted (· ≤ ·)
      ((generateDifficultyCurve (calculateQuestionCount complexityScore adaptationModifier)
        complexityScore).map difficultyRank) := by
  interval_cases complexityScore <;> interval_cases adaptationModifier <;>
    constructor <;>
    · norm_num [calculateQuestionCount, generateDifficultyCurve, jsRound]
      try decide

/-- Witness for C4 at complexityScore = 2, adaptationModifier = 1. -/
theorem generateDifficultyCurve_length_and_monotone_witness :
    ((1 : ℤ) ≤ 2 ∧ (2 : ℤ) ≤ 4 ∧ (0 : ℤ) ≤ 1 ∧ (1 : ℤ) ≤ 2) ∧
    ((((generateDifficultyCurve (calculateQuestionCount 2 1) 2).length : ℤ) =
        calculateQuestionCount 2 1) ∧
      List.Sorted (· ≤ ·)
        ((generateDifficultyCurve (calculateQuestionCount 2 1) 2).map difficultyRank)) :=
  ⟨by decide,
    generateDifficultyCurve_length_and_monotone 2 1
      (by decide) (by decide) (by decide) (by decide)⟩

/-- C7: for every complexityScore in [1,4] and totalCount from the count
formula, the curve's easy and medium counts are the rounded values of
`easyRatio = 0.4 - 0.05*complexityScore` and `mediumRatio = 0.4` applied to
totalCount (floored at 1), the hard count is the remainder, and each bucket
holds at least one question. -/
theorem generateDifficultyCurve_bucket_counts
    (complexityScore adaptationModifier : ℤ)
    (h1 : 1 ≤ complexityScore) (h2 : complexityScore ≤ 4)
    (h3 : 0 ≤ adaptationModifier) (h4 : adaptationModifier ≤ 2) :
    (((generateDifficultyCurve (calculateQuestionCount complexityScore adaptationModifier)
          complexityScore).count .easy : ℤ) =
        max 1 (jsRound ((calculateQuestionCount complexityScore adaptationModifier : ℚ) *
          (0.4 - 0.05 * (complexityScore : ℚ)))) ∧
      ((generateDifficultyCurve (calculateQuestionCount complexityScore adaptationModifier)
          complexityScore).count .medium : ℤ) =
        max 1 (jsRound ((calculateQuestionCount complexityScore adaptationModifier : ℚ) * 0.4)) ∧
      ((generateDifficultyCurve (calculateQuestionCount complexityScore adaptationModifier)
          complexityScore).count .hard : ℤ) =
        calculateQuestionCount complexityScore adaptationModifier -
          ((generateDifficultyCurve (calculateQuestionCount complexityScore adaptationModifier)
            complexityScore).count .easy : ℤ) -
          ((generateDifficultyCurve (calculateQuestionCount complexityScore adaptationModifier)
            complexityScore).count .medium : ℤ)) ∧
    1 ≤ (generateDifficultyCurve (calculateQuestionCount complexityScore adaptationModifier)
          complexityScore).count .easy ∧
    1 ≤ (generateDifficultyCurve (calculateQuestionCount complexityScore adaptationModifier)
          complexityScore).count .medium ∧
    1 ≤ (generateDifficultyCurve (calculateQuestionCount complexityScore adaptationModifier)
          complexityScore).count .hard := by
  interval_cases complexityScore <;> interval_cases adaptationModifier <;>
    refine ⟨⟨?_, ?_, ?_⟩, ?_, ?_, ?_⟩ <;>
    · norm_num [calculateQuestionCount, generateDifficultyCurve, jsRound]
      try decide

/-- Witness for C7 at complexityScore = 2, adaptationModifier = 2. -/
theorem generateDifficultyCurve_bucket_counts_witness :
    ((1 : ℤ) ≤ 2 ∧ (2 : ℤ) ≤ 4 ∧ (0 : ℤ) ≤ 2 ∧ (2 : ℤ) ≤ 2) ∧
    ((((generateDifficultyCurve (calculateQuestionCount 2 2) 2).count .easy : ℤ) =
        max 1 (jsRound ((calculateQuestionCount 2 2 : ℚ) * (0.4 - 0.05 * (2 : ℚ)))) ∧
      ((generateDifficultyCurve (calculateQuestionCount 2 2) 2).count .medium : ℤ) =
        max 1 (jsRound ((calculateQuestionCount 2 2 : ℚ) * 0.4)) ∧
      ((generateDifficultyCurve (calculateQuestionCount 2 2) 2).count .hard : ℤ) =
        calculateQuestionCount 2 2 -
          ((generateDifficultyCurve (calculateQuestionCount 2 2) 2).count .easy : ℤ) -
          ((generateDifficultyCurve (calculateQuestionCount 2 2) 2).count .medium : ℤ)) ∧
    1 ≤ (generateDifficultyCurve (calculateQuestionCount 2 2) 2).count .easy ∧
    1 ≤ (generateDifficultyCurve (calculateQuestionCount 2 2) 2).count .medium ∧
    1 ≤ (generateDifficultyCurve (calculateQuestionCount 2 2) 2).count .hard) :=
  ⟨by decide,
    generateDifficultyCurve_bucket_counts 2 2
      (by decide) (by decide) (by decide) (by decide)⟩

/-! ## Helper lemmas for the submit scoring loop -/

/-- Per-bucket sanity: correct counters never exceed total counters. -/
def categoryScoresWF (c : CategoryScores) : Prop :=
  c.foundationCorrect ≤ c.foundationTotal ∧
  c.applicationCorrect ≤ c.applicationTotal ∧
  c.synthesisCorrect ≤ c.synthesisTotal

theorem bumpCategory_wf (c : CategoryScores) (d : DifficultyLevel) (b : Bool)
    (h : categoryScoresWF c) : categoryScoresWF (bumpCategory c d b) := by
  obtain ⟨hf, ha, hs⟩ := h
  cases d <;> refine ⟨?_, ?_, ?_⟩ <;>
    (simp only [bumpCategory]; (try split) <;> omega)

theorem runSubmit_wf (validate : CheckpointQuestion → SubmittedAnswer → ScoreEntry)
    (questionMap : String → Option CheckpointQuestion) :
    ∀ (answers : List SubmittedAnswer) (s : String → Option ScoreEntry)
      (c : CategoryScores), categoryScoresWF c →
      categoryScoresWF (runSubmit validate questionMap answers s c).2 := by
  intro answers
  induction answers with
  | nil => intro s c h; exact h
  | cons a rest ih =>
    intro s c h
    cases hm : questionMap a.questionId with
    | none => simpa only [runSubmit, hm] using ih _ _ h
    | some q => simpa only [runSubmit, hm] using ih _ _ (bumpCategory_wf _ _ _ h)

theorem categoryScore_nonneg (correct total : ℕ) : 0 ≤ categoryScore correct total := by
  unfold categoryScore
  split
  · positivity
  · norm_num

theorem categoryScore_le_100 (correct total : ℕ) (h : correct ≤ total) :
    categoryScore correct total ≤ 100 := by
  unfold categoryScore
  split
  · rename_i ht
    have h1 : (correct : ℚ) / (total : ℚ) ≤ 1 := by
      rw [div_le_one (by exact_mod_cast ht)]
      exact_mod_cast h
    nlinarith
  · norm_num

theorem totalScoreOf_bounds (c : CategoryScores) (h : categoryScoresWF c) :
    0 ≤ totalScoreOf c ∧ totalScoreOf c ≤ 100 := by
  obtain ⟨h1, h2, h3⟩ := h
  have f0 := categoryScore_nonneg c.foundationCorrect c.foundationTotal
  have a0 := categoryScore_nonneg c.applicationCorrect c.applicationTotal
  have s0 := categoryScore_nonneg c.synthesisCorrect c.synthesisTotal
  have f1 := categoryScore_le_100 c.foundationCorrect c.foundationTotal h1
  have a1 := categoryScore_le_100 c.applicationCorrect c.applicationTotal h2
  have s1 := categoryScore_le_100 c.synthesisCorrect c.synthesisTotal h3
  unfold totalScoreOf jsRound
  constructor
  · exact Int.le_floor.mpr (by push_cast; nlinarith)
  · have hlt : (⌊categoryScore c.foundationCorrect c.foundationTotal * 0.4 +
        categoryScore c.applicationCorrect c.applicationTotal * 0.35 +
        categoryScore c.synthesisCorrect c.synthesisTotal * 0.25 + 1/2⌋ : ℤ) < 101 := by
      apply Int.floor_lt.mpr
      push_cast
      nlinarith
    omega

/-- C2: for every submission (any validator outcome, question map and answer
list) the weighted total equals `round(foundationScore*0.4 +
applicationScore*0.35 + synthesisScore*0.25)` over the aggregated bucket
scores, lies in [0,100], and `canProgress` holds exactly when it is ≥ 70. -/
theorem submit_totalScore_formula_range_threshold
    (validate : CheckpointQuestion → SubmittedAnswer → ScoreEntry)
    (questionMap : String → Option CheckpointQuestion)
    (answers : List SubmittedAnswer) :
    totalScoreOf (runSubmit validate questionMap answers (fun _ => none) zeroCategoryScores).2 =
      jsRound
        (categoryScore
            (runSubmit validate questionMap answers (fun _ => none) zeroCategoryScores).2.foundationCorrect
            (runSubmit validate questionMap answers (fun _ => none) zeroCategoryScores).2.foundationTotal * 0.4 +
          categoryScore
            (runSubmit validate questionMap answers (fun _ => none) zeroCategoryScores).2.applicationCorrect
            (runSubmit validate questionMap answers (fun _ => none) zeroCategoryScores).2.applicationTotal * 0.35 +
          categoryScore
            (runSubmit validate questionMap answers (fun _ => none) zeroCategoryScores).2.synthesisCorrect
            (runSubmit validate questionMap answers (fun _ => none) zeroCategoryScores).2.synthesisTotal * 0.25) ∧
    0 ≤ totalScoreOf (runSubmit validate questionMap answers (fun _ => none) zeroCategoryScores).2 ∧
    totalScoreOf (runSubmit validate questionMap answers (fun _ => none) zeroCategoryScores).2 ≤ 100 ∧
    (canProgressOf (runSubmit validate questionMap answers (fun _ => none) zeroCategoryScores).2 = true ↔
      70 ≤ totalScoreOf (runSubmit validate questionMap answers (fun _ => none) zeroCategoryScores).2) := by
  have hwf : categoryScoresWF
      (runSubmit validate questionMap answers (fun _ => none) zeroCategoryScores).2 :=
    runSubmit_wf validate questionMap answers _ _ ⟨le_refl 0, le_refl 0, le_refl 0⟩
  obtain ⟨hb0, hb100⟩ := totalScoreOf_bounds _ hwf
  refine ⟨rfl, hb0, hb100, ?_⟩
  simp [canProgressOf, ge_iff_le]

/-! ## Helper lemmas: the scoring loop and unknown question ids -/

theorem runSubmit_counts_scores_indep
    (validate : CheckpointQuestion → SubmittedAnswer → ScoreEntry)
    (questionMap : String → Option CheckpointQuestion) :
    ∀ (l : List SubmittedAnswer) (s s' : String → Option ScoreEntry)
      (c : CategoryScores),
      (runSubmit validate questionMap l s c).2 = (runSubmit validate questionMap l s' c).2 := by
  intro l
  induction l with
  | nil => intro s s' c; rfl
  | cons a rest ih =>
    intro s s' c
    cases hm : questionMap a.questionId <;>
      simp only [runSubmit, hm] <;> apply ih

theorem runSubmit_append
    (validate : CheckpointQuestion → SubmittedAnswer → ScoreEntry)
    (questionMap : String → Option CheckpointQuestion) :
    ∀ (l1 l2 : List SubmittedAnswer) (s : String → Option ScoreEntry)
      (c : CategoryScores),
      runSubmit validate questionMap (l1 ++ l2) s c =
        runSubmit validate questionMap l2
          (runSubmit validate questionMap l1 s c).1
          (runSubmit validate questionMap l1 s c).2 := by
  intro l1
  induction l1 with
  | nil => intro l2 s c; rfl
  | cons a rest ih =>
    intro l2 s c
    cases hm : questionMap a.questionId <;>
      simp only [List.cons_append, runSubmit, hm] <;> apply ih

theorem runSubmit_scores_stable
    (validate : CheckpointQuestion → SubmittedAnswer → ScoreEntry)
    (questionMap : String → Option CheckpointQuestion)
    (key : String) (hk : questionMap key = none) :
    ∀ (l : List SubmittedAnswer) (s : String → Option ScoreEntry)
      (c : CategoryScores), s key = some ⟨false, false⟩ →
      (runSubmit validate questionMap l s c).1 key = some ⟨false, false⟩ := by
  intro l
  induction l with
  | nil => intro s c h; exact h
  | cons a rest ih =>
    intro s c h
    cases hm : questionMap a.questionId with
    | none =>
      simp only [runSubmit, hm]
      apply ih
      unfold updateScores
      split <;> simp [h]
    | some q =>
      simp only [runSubmit, hm]
      apply ih
      unfold updateScores
      have hne : key ≠ a.questionId := by
        intro he
        rw [he, hm] at hk
        cases hk
      simp [hne, h]

/-- C10: an answer whose questionId is absent from the regenerated question
set is recorded as `{isCorrect: false, geminiValidated: false}` and leaves
the per-bucket counters — and hence the weighted total score and the pass
flag — exactly as they would be without that answer. -/
theorem submit_unknown_questionId_ignored
    (validate : CheckpointQuestion → SubmittedAnswer → ScoreEntry)
    (questionMap : String → Option CheckpointQuestion)
    (a : SubmittedAnswer) (l1 l2 : List SubmittedAnswer)
    (h : questionMap a.questionId = none) :
    (runSubmit validate questionMap (l1 ++ a :: l2) (fun _ => none) zeroCategoryScores).1
        a.questionId = some ⟨false, false⟩ ∧
    (runSubmit validate questionMap (l1 ++ a :: l2) (fun _ => none) zeroCategoryScores).2 =
      (runSubmit validate questionMap (l1 ++ l2) (fun _ => none) zeroCategoryScores).2 ∧
    totalScoreOf (runSubmit validate questionMap (l1 ++ a :: l2) (fun _ => none) zeroCategoryScores).2 =
      totalScoreOf (runSubmit validate questionMap (l1 ++ l2) (fun _ => none) zeroCategoryScores).2 ∧
    canProgressOf (runSubmit validate questionMap (l1 ++ a :: l2) (fun _ => none) zeroCategoryScores).2 =
      canProgressOf (runSubmit validate questionMap (l1 ++ l2) (fun _ => none) zeroCategoryScores).2 := by
  have hcounts :
      (runSubmit validate questionMap (l1 ++ a :: l2) (fun _ => none) zeroCategoryScores).2 =
        (runSubmit validate questionMap (l1 ++ l2) (fun _ => none) zeroCategoryScores).2 := by
    rw [runSubmit_append, runSubmit_append]
    simp only [runSubmit, h]
    apply runSubmit_counts_scores_indep
  refine ⟨?_, hcounts, by rw [hcounts], by rw [hcounts]⟩
  rw [runSubmit_append]
  simp only [runSubmit, h]
  apply runSubmit_scores_stable validate questionMap a.questionId h
  simp [updateScores]

/-- Witness for C10: a one-answer submission against an empty question map. -/
theorem submit_unknown_questionId_ignored_witness :
    ((fun _ => none : String → Option CheckpointQuestion) "q1" = none) ∧
    ((runSubmit (fun _ _ => ⟨true, true⟩) (fun _ => none)
        ([] ++ ⟨"q1", Sum.inl 0⟩ :: []) (fun _ => none) zeroCategoryScores).1 "q1" =
      some ⟨false, false⟩ ∧
    (runSubmit (fun _ _ => ⟨true, true⟩) (fun _ => none)
        ([] ++ ⟨"q1", Sum.inl 0⟩ :: []) (fun _ => none) zeroCategoryScores).2 =
      (runSubmit (fun _ _ => ⟨true, true⟩) (fun _ => none)
        ([] ++ []) (fun _ => none) zeroCategoryScores).2 ∧
    totalScoreOf (runSubmit (fun _ _ => ⟨true, true⟩) (fun _ => none)
        ([] ++ ⟨"q1", Sum.inl 0⟩ :: []) (fun _ => none) zeroCategoryScores).2 =
      totalScoreOf (runSubmit (fun _ _ => ⟨true, true⟩) (fun _ => none)
        ([] ++ []) (fun _ => none) zeroCategoryScores).2 ∧
    canProgressOf (runSubmit (fun _ _ => ⟨true, true⟩) (fun _ => none)
        ([] ++ ⟨"q1", Sum.inl 0⟩ :: []) (fun _ => none) zeroCategoryScores).2 =
      canProgressOf (runSubmit (fun _ _ => ⟨true, true⟩) (fun _ => none)
        ([] ++ []) (fun _ => none) zeroCategoryScores).2) :=
  ⟨rfl,
    submit_unknown_questionId_ignored (fun _ _ => ⟨true, true⟩) (fun _ => none)
      ⟨"q1", Sum.inl 0⟩ [] [] rfl⟩

/-- C3: for every signals record and baseComplexity, the returned modifier is
the two-decimal rounding of the clamp to [0,2] of `speedScore*0.30 +
pauseScore*0.25 + revisitScore*0.25 + timeScore*0.20`, lies in [0,2], and is
an integer multiple of 0.01. -/
theorem calculateComplexityAdjustment_modifier_formula_and_bounds
    (signals : AdaptationSignals) (baseComplexity : ℚ) :
    (calculateComplexityAdjustment signals baseComplexity).modifier =
      (jsRound (min 2 (max 0 (speedScore signals.scrollSpeed * 0.3 +
        pauseScore signals.pausePoints * 0.25 +
        revisitScore signals.revisitCount * 0.25 +
        timeScore signals.timeOnPage baseComplexity * 0.2)) * 100) : ℚ) / 100 ∧
    0 ≤ (calculateComplexityAdjustment signals baseComplexity).modifier ∧
    (calculateComplexityAdjustment signals baseComplexity).modifier ≤ 2 ∧
    ∃ k : ℤ, (calculateComplexityAdjustment signals baseComplexity).modifier = (k : ℚ) / 100 := by
  have heq : (calculateComplexityAdjustment signals baseComplexity).modifier =
      (jsRound (min 2 (max 0 (speedScore signals.scrollSpeed * 0.3 +
        pauseScore signals.pausePoints * 0.25 +
        revisitScore signals.revisitCount * 0.25 +
        timeScore signals.timeOnPage baseComplexity * 0.2)) * 100) : ℚ) / 100 := rfl
  set m : ℚ := min 2 (max 0 (speedScore signals.scrollSpeed * 0.3 +
    pauseScore signals.pausePoints * 0.25 +
    revisitScore signals.revisitCount * 0.25 +
    timeScore signals.timeOnPage baseComplexity * 0.2)) with hm
  have hm0 : 0 ≤ m := le_min (by norm_num) (le_max_left 0 _)
  have hm2 : m ≤ 2 := min_le_left _ _
  have hk0 : 0 ≤ jsRound (m * 100) := by
    unfold jsRound
    exact Int.le_floor.mpr (by push_cast; linarith)
  have hk200 : jsRound (m * 100) ≤ 200 := by
    have hlt : (⌊m * 100 + 1/2⌋ : ℤ) < 201 := Int.floor_lt.mpr (by push_cast; linarith)
    unfold jsRound
    omega
  refine ⟨heq, ?_, ?_, ⟨jsRound (m * 100), heq⟩⟩
  · rw [heq]
    apply div_nonneg _ (by norm_num)
    exact_mod_cast hk0
  · rw [heq, div_le_iff₀ (by norm_num : (0 : ℚ) < 100)]
    have : ((jsRound (m * 100) : ℚ)) ≤ 200 := by exact_mod_cast hk200
    linarith

/-- C8 counterexample: at maximum-comfort signals (scrollSpeed = 200,
pausePoints = 0, revisitCount = 0, timeOnPage = 1 ms, baseComplexity = 2)
the returned modifier is 1.65, not approximately 2.0 — it differs from 2
by 0.35, more than any two-decimal rounding tolerance.  (1.65 is in fact
the largest value the weighted sum can reach: 2·0.3 + 1.5·0.25 + 1.5·0.25
+ 1.5·0.2.)  The difficulty is still "easy". -/
theorem adaptation_max_comfort_modifier_not_two :
    (calculateComplexityAdjustment ⟨200, 0, 0, 1⟩ 2).modifier = 1.65 ∧
    (calculateComplexityAdjustment ⟨200, 0, 0, 1⟩ 2).modifier ≠ 2 ∧
    ¬ (|(calculateComplexityAdjustment ⟨200, 0, 0, 1⟩ 2).modifier - 2| ≤ 0.25) ∧
    (calculateComplexityAdjustment ⟨200, 0, 0, 1⟩ 2).difficulty = .easy := by
  norm_num [calculateComplexityAdjustment, speedScore, pauseScore, revisitScore,
    timeScore, jsRound]
  rw [abs_of_nonneg (show (0 : ℚ) ≤ 7 / 20 by norm_num)]
  norm_num

/-- C8 (amended): with all signals at maximum comfort (scrollSpeed = 200,
pausePoints = 0, revisitCount = 0, tiny positive timeOnPage — any
timeOnPage below half the expected reading time for a positive
baseComplexity), the modifier is exactly 1.65 (the maximum attainable
weighted sum) and the difficulty classification is "easy". -/
theorem adaptation_max_comfort (t bc : ℚ) (ht : 0 < t) (hbc : 0 < bc)
    (hr : t < bc * 30000) :
    (calculateComplexityAdjustment ⟨200, 0, 0, t⟩ bc).modifier = 1.65 ∧
    (calculateComplexityAdjustment ⟨200, 0, 0, t⟩ bc).difficulty = .easy := by
  have hts : timeScore t bc = 1.5 := by
    unfold timeScore
    have hexp : (0 : ℚ) < bc * 60 * 1000 := by positivity
    have hratio : t / (bc * 60 * 1000) < 0.5 := by
      rw [div_lt_iff₀ hexp]; linarith
    rw [if_pos ht, if_neg (ne_of_gt hexp), if_pos hratio]
  have hss : speedScore 200 = 2 := by norm_num [speedScore]
  have hps : pauseScore 0 = 1.5 := by norm_num [pauseScore]
  have hrs : revisitScore 0 = 1.5 := by norm_num [revisitScore]
  constructor
  · show (jsRound (min 2 (max 0 (speedScore 200 * 0.3 + pauseScore 0 * 0.25 +
      revisitScore 0 * 0.25 + timeScore t bc * 0.2)) * 100) : ℚ) / 100 = 1.65
    rw [hss, hps, hrs, hts]
    norm_num [jsRound]
  · show (if min 2 (max 0 (speedScore 200 * 0.3 + pauseScore 0 * 0.25 +
        revisitScore 0 * 0.25 + timeScore t bc * 0.2)) ≥ 1.5 then AdaptDifficulty.easy
      else if min 2 (max 0 (speedScore 200 * 0.3 + pauseScore 0 * 0.25 +
        revisitScore 0 * 0.25 + timeScore t bc * 0.2)) ≥ 0.75 then AdaptDifficulty.normal
      else AdaptDifficulty.hard) = AdaptDifficulty.easy
    rw [hss, hps, hrs, hts]
    norm_num

/-- Witness for the amended C8 at timeOnPage = 1, baseComplexity = 2. -/
theorem adaptation_max_comfort_witness :
    ((0 : ℚ) < 1 ∧ (0 : ℚ) < 2 ∧ (1 : ℚ) < 2 * 30000) ∧
    ((calculateComplexityAdjustment ⟨200, 0, 0, 1⟩ 2).modifier = 1.65 ∧
      (calculateComplexityAdjustment ⟨200, 0, 0, 1⟩ 2).difficulty = .easy) :=
  ⟨by norm_num,
    adaptation_max_comfort 1 2 (by norm_num) (by norm_num) (by norm_num)⟩

/-! ## Helper lemma for the short-answer fallback loop -/

theorem validateShortAnswerFallbackLoop_iff (u : String) (l : List String) :
    validateShortAnswerFallbackLoop u l = true ↔
      ∃ a ∈ l,
        ((keywordsOf a.toLower).length > 0 ∧
          ((keywordsOf a.toLower).filter (fun kw => jsIncludes u kw)).length ≥
            Nat.ceil (((keywordsOf a.toLower).length : ℚ) * 0.5)) ∨
        (u.length > 0 ∧ calculateSimilarity u a.toLower > 0.7) := by
  induction l with
  | nil => simp [validateShortAnswerFallbackLoop]
  | cons a rest ih =>
    simp only [validateShortAnswerFallbackLoop]
    split_ifs with h1 h2
    · exact iff_of_true rfl ⟨a, List.mem_cons_self a rest, Or.inl h1⟩
    · exact iff_of_true rfl ⟨a, List.mem_cons_self a rest, Or.inr h2⟩
    · rw [ih]
      constructor
      · rintro ⟨b, hb, hp⟩
        exact ⟨b, List.mem_cons_of_mem a hb, hp⟩
      · rintro ⟨b, hb, hp⟩
        rcases List.mem_cons.mp hb with he | hm
        · subst he
          rcases hp with hk | hs
          · exact absurd hk h1
          · exact absurd hs h2
        · exact ⟨b, hm, hp⟩

/-- C6: when the external semantic-validation call throws, a submitted short
answer is judged correct iff for some acceptable answer either at least
`ceil(k * 0.5)` of that answer's `k` keywords (lowercased
whitespace-separated words of length > 3, with `k > 0`) occur as substrings
of the lowercased trimmed user answer, or the user answer is non-empty and
its `(longerLength - levenshteinDistance) / longerLength` similarity to the
lowercased acceptable answer exceeds 0.7. -/
theorem validateShortAnswerFallback_iff (acceptableAnswers : List String)
    (userAnswer : String) :
    validateShortAnswerFallback acceptableAnswers userAnswer = true ↔
      ∃ acceptable ∈ acceptableAnswers,
        ((keywordsOf acceptable.toLower).length > 0 ∧
          ((keywordsOf acceptable.toLower).filter
            (fun kw => jsIncludes (userAnswer.toLower.trim) kw)).length ≥
            Nat.ceil (((keywordsOf acceptable.toLower).length : ℚ) * 0.5)) ∨
        ((userAnswer.toLower.trim).length > 0 ∧
          calculateSimilarity (userAnswer.toLower.trim) acceptable.toLower > 0.7) :=
  validateShortAnswerFallbackLoop_iff (userAnswer.toLower.trim) acceptableAnswers

/-- C9 (code bug demonstration): with the shuffle outcome
`shuffledIndices = [1, 2, 0, 3]` — a legitimate permutation of `[0, 1, 2, 3]`
— the easy-difficulty MCQ marks `correctAnswerIndex = shuffledIndices[0] = 1`,
but the option stored there is `baseOptions[shuffledIndices[1]] =
baseOptions[2]` ("An optional enhancement"), while the intended correct
first base option ("The fundamental building block") sits at index 2.
Selecting the marked index is scored correct even though it is not the
correct text. -/
theorem mcq_marked_index_holds_wrong_option :
    Function.Bijective (![1, 2, 0, 3] : Fin 4 → Fin 4) ∧
    (generateMCQuestionOptions .easy ![1, 2, 0, 3]).2 = 1 ∧
    (generateMCQuestionOptions .easy ![1, 2, 0, 3]).1
        ((generateMCQuestionOptions .easy ![1, 2, 0, 3]).2) =
      "An optional enhancement" ∧
    mcqOptionTemplates .easy 0 = "The fundamental building block" ∧
    (generateMCQuestionOptions .easy ![1, 2, 0, 3]).1 2 =
      "The fundamental building block" ∧
    (generateMCQuestionOptions .easy ![1, 2, 0, 3]).1
        ((generateMCQuestionOptions .easy ![1, 2, 0, 3]).2) ≠
      mcqOptionTemplates .easy 0 := by
  refine ⟨by decide, by decide, by decide, by decide, by decide, by decide⟩
